import Mathlib

/-!
Verification of the `milkrs` wrapper library (`src/lib.rs`) against its
specification.  The library manages the lifecycle of an external `milk`
process driven through a named fifo: `Milk::new` creates the fifo, spawns
the process and opens the write end; `Milk::cmd` / `Milk::cmds` write
newline-terminated commands; the `Drop` impl sends `"exit"` and waits for
the process.

The embedding is trace-based: every operation returns the list of
OS-level actions it performs, together with the updated channel state and
an outcome.  Environment parameters (`wOk`, `NewEnv`, `waitOk`) decide
which syscalls succeed, so every control-flow path of the source is
represented.
-/

/-- An OS-level action performed by the wrapper.  The constructors record
exactly the information the source passes to the corresponding call:
which standard streams are redirected to `Stdio::null()`, the
`File::options()` flags, the bytes handed to `write!`.  `killCall` and
`removeFifo` are never produced by any modelled operation (the source
contains no kill and no fifo-node removal); they exist so that their
absence from a trace is expressible. -/
inductive OsAction where
  | mkfifoCall (path : String) (stdinNull stdoutNull : Bool)
  | spawnCall (bin : String) (args : List String) (stdinNull stdoutNull stderrNull : Bool)
  | openCall (path : String) (create read write append : Bool)
  | writeAttempt (bytes : String)
  | waitCall
  | killCall
  | removeFifo (path : String)
deriving DecidableEq

/-- True exactly on the `removeFifo` action. -/
def OsAction.isRemove : OsAction → Bool
  | OsAction.removeFifo _ => true
  | _ => false

/-- True exactly on a `spawnCall` action. -/
def OsAction.isSpawn : OsAction → Bool
  | OsAction.spawnCall _ _ _ _ _ => true
  | _ => false

/-- True exactly on an `openCall` action. -/
def OsAction.isOpen : OsAction → Bool
  | OsAction.openCall _ _ _ _ _ => true
  | _ => false

/-- True exactly on the `waitCall` action. -/
def OsAction.isWait : OsAction → Bool
  | OsAction.waitCall => true
  | _ => false

/-- True exactly on the `killCall` action. -/
def OsAction.isKill : OsAction → Bool
  | OsAction.killCall => true
  | _ => false

/-- Outcome of a Rust computation in the embedding: `ok` is normal return,
`err` is a returned `Result::Err` (the only form of failure a caller can
detect and handle), `panicked` is a panic raised by `.expect(..)` /
`unwrap`, carrying the expect message. -/
inductive Outcome (α : Type) where
  | ok (a : α)
  | err (e : String)
  | panicked (msg : String)
deriving DecidableEq

/-- True exactly on a returned error (`Result::Err`). -/
def Outcome.isErr {α : Type} : Outcome α → Bool
  | Outcome.err _ => true
  | _ => false

/-- State of the write end of the fifo channel: the chunks successfully
written so far, in order (the byte stream delivered to the reader is
their concatenation), and the number of write attempts made so far
(used to index the per-write success environment). -/
structure ChanState where
  written : List String
  idx : Nat
deriving DecidableEq

/-- Milk::cmd (src/lib.rs lines 93-95):
`write!(self.fifo_pipe, "{command}\n").expect("couldn't write commmand string")`.
It performs a single write of `command ++ "\n"` to the fifo descriptor;
`wOk` tells whether the write syscall at the current attempt index
succeeds.  On failure the `.expect` panics with the source message (the
triple m is in the source); the function has return type `()` so no
error value can ever be returned. -/
def Milk.cmd (wOk : Nat → Bool) (s : ChanState) (command : String) :
    List OsAction × ChanState × Outcome Unit :=
  let bytes := command ++ "\n"
  if wOk s.idx then
    ([OsAction.writeAttempt bytes], ⟨s.written ++ [bytes], s.idx + 1⟩, Outcome.ok ())
  else
    ([OsAction.writeAttempt bytes], ⟨s.written, s.idx + 1⟩,
      Outcome.panicked "couldn\x27t write commmand string")

/-- Milk::cmds (src/lib.rs lines 107-111):
`for command in commands { self.cmd(command); }`.
Each iteration is a call to `Milk.cmd`; a panic inside `cmd` propagates
and aborts the remaining iterations. -/
def Milk.cmds (wOk : Nat → Bool) : ChanState → List String →
    List OsAction × ChanState × Outcome Unit
  | s, [] => ([], s, Outcome.ok ())
  | s, c :: rest =>
    let r := Milk.cmd wOk s c
    match r.2.2 with
    | Outcome.ok _ =>
      let r2 := Milk.cmds wOk r.2.1 rest
      (r.1 ++ r2.1, r2.2)
    | o => (r.1, r.2.1, o)

/-- Drop for Milk (src/lib.rs lines 29-34): `self.cmd("exit");` then
`self.milk_process.wait().expect("couldn't wait?")`.  If the `cmd` call
panics (write failure) the panic propagates out of `drop` and the wait is
never reached; otherwise the process is waited on, and a wait error
panics with the source message. -/
def Milk.drop (wOk : Nat → Bool) (waitOk : Bool) (s : ChanState) :
    List OsAction × ChanState × Outcome Unit :=
  let r := Milk.cmd wOk s "exit"
  match r.2.2 with
  | Outcome.ok _ =>
    (r.1 ++ [OsAction.waitCall], r.2.1,
      if waitOk then Outcome.ok () else Outcome.panicked "couldn\x27t wait?")
  | o => (r.1, r.2.1, o)

/-- Zero-padded decimal formatting of width 6, as Rust `format!("{:06}", n)`. -/
def pad6 (n : Nat) : String :=
  let s := toString n
  String.mk (List.replicate (6 - s.length) '0') ++ s

/-- The fifo path generated by Milk::new (src/lib.rs line 48):
`format!("/tmp/.fifo.{:06}", rng.gen_range(0..=1_000_000))`. -/
def fifoName (suffix : Nat) : String := "/tmp/.fifo." ++ pad6 suffix

/-- Result of the `mkfifo` `status()` call in Milk::new: either the call
itself fails with an io error (propagated by `?`), or the child ran and
reported an exit status whose `success()` is the boolean. -/
inductive StatusOutcome where
  | ioError (e : String)
  | exited (success : Bool)
deriving DecidableEq

/-- Environment for one run of Milk::new: the random fifo suffix drawn
from the rng, the result of the `mkfifo` status call, whether
`Command::new("milk")...spawn()` succeeds, and the error (if any) of
opening the fifo write end. -/
structure NewEnv where
  fifoSuffix : Nat
  mkfifoStatus : StatusOutcome
  spawnOk : Bool
  openErr : Option String
deriving DecidableEq

/-- Milk::new (src/lib.rs lines 46-83).  Steps, in source order:
1. build the fifo path from the random suffix;
2. run `mkfifo` with stdin and stdout nulled; an io error from
   `status()` is returned via `?`, and a non-success exit status returns
   `Err("Couldn't create pipe!")`;
3. spawn `milk -f -F <path>` with stdout, stderr and stdin all nulled;
   a spawn failure panics via `.expect("Failed to spawn milk process")`;
4. open the fifo with `create(false) read(false) write(true)
   append(true)`; an open error is returned via `?`;
5. on success return the handle (identified here by the fifo path). -/
def Milk.new (env : NewEnv) : List OsAction × Outcome String :=
  let name := fifoName env.fifoSuffix
  match env.mkfifoStatus with
  | StatusOutcome.ioError e => ([OsAction.mkfifoCall name true true], Outcome.err e)
  | StatusOutcome.exited false =>
    ([OsAction.mkfifoCall name true true], Outcome.err "Couldn\x27t create pipe!")
  | StatusOutcome.exited true =>
    let t2 := [OsAction.mkfifoCall name true true,
               OsAction.spawnCall "milk" ["-f", "-F", name] true true true]
    if env.spawnOk then
      match env.openErr with
      | some e => (t2 ++ [OsAction.openCall name false false true true], Outcome.err e)
      | none => (t2 ++ [OsAction.openCall name false false true true], Outcome.ok name)
    else (t2, Outcome.panicked "Failed to spawn milk process")

/-- A channel state with nothing written and no write attempts made. -/
def chan0 : ChanState := ⟨[], 0⟩

/-- Environment in which every write syscall succeeds. -/
def wOkAlways : Nat → Bool := fun _ => true

/-- Environment in which every write syscall fails (e.g. the fifo reader
process has exited, so writes hit a broken pipe). -/
def wOkNever : Nat → Bool := fun _ => false

/-- A Milk::new environment where the mkfifo child reports failure. -/
def envMkfifoFail : NewEnv := ⟨0, StatusOutcome.exited false, true, none⟩

/-- A Milk::new environment where mkfifo succeeds and the spawn fails
(e.g. the `milk` binary is not found). -/
def envSpawnFail : NewEnv := ⟨0, StatusOutcome.exited true, false, none⟩

/-- A Milk::new environment where mkfifo and spawn succeed and opening
the fifo write end fails. -/
def envOpenFail : NewEnv := ⟨0, StatusOutcome.exited true, true, some "open failed"⟩

/-- A Milk::new environment where every step succeeds. -/
def envAllOk : NewEnv := ⟨0, StatusOutcome.exited true, true, none⟩

/-- Spec-side model of a batch send, built from the spec words: invoke
the single send (`Milk.cmd`) on each element of the list in order; a
panic in one call aborts the rest (Rust panics propagate), carrying the
trace, channel state and outcome along a left fold. -/
def sendEachStep (wOk : Nat → Bool) (acc : List OsAction × ChanState × Outcome Unit)
    (c : String) : List OsAction × ChanState × Outcome Unit :=
  match acc with
  | (t, s, Outcome.ok _) =>
    let r := Milk.cmd wOk s c
    (t ++ r.1, r.2.1, r.2.2)
  | acc => acc

/-- Spec-side batch send: fold `sendEachStep` over the command list. -/
def sendEachSpec (wOk : Nat → Bool) (s : ChanState) (l : List String) :
    List OsAction × ChanState × Outcome Unit :=
  l.foldl (sendEachStep wOk) ([], s, Outcome.ok ())

/-- The commands whose writes succeed before the first failing write,
starting from write-attempt index `i`: the delivered prefix of a batch. -/
def takenWhileOk (wOk : Nat → Bool) : Nat → List String → List String
  | _, [] => []
  | i, c :: rest => if wOk i then c :: takenWhileOk wOk (i + 1) rest else []

lemma sendEachStep_stuck (wOk : Nat → Bool) (l : List String) (t : List OsAction)
    (s : ChanState) (m : String) :
    l.foldl (sendEachStep wOk) (t, s, Outcome.panicked m) = (t, s, Outcome.panicked m) := by
  induction l with
  | nil => rfl
  | cons c rest ih => simpa [sendEachStep] using ih

lemma sendEachSpec_go (wOk : Nat → Bool) (l : List String) :
    ∀ (t : List OsAction) (s : ChanState),
      l.foldl (sendEachStep wOk) (t, s, Outcome.ok ()) =
        (t ++ (Milk.cmds wOk s l).1, (Milk.cmds wOk s l).2.1, (Milk.cmds wOk s l).2.2) := by
  induction l with
  | nil => intro t s; simp [Milk.cmds]
  | cons c rest ih =>
    intro t s
    by_cases h : wOk s.idx
    · simp [List.foldl_cons, sendEachStep, Milk.cmd, h, Milk.cmds, ih]
    · simp [List.foldl_cons, sendEachStep, Milk.cmd, h, Milk.cmds, sendEachStep_stuck]

lemma cmds_written (wOk : Nat → Bool) (l : List String) :
    ∀ s : ChanState,
      (Milk.cmds wOk s l).2.1.written =
        s.written ++ (takenWhileOk wOk s.idx l).map (fun c => c ++ "\n") := by
  induction l with
  | nil => intro s; simp [Milk.cmds, takenWhileOk]
  | cons c rest ih =>
    intro s
    by_cases h : wOk s.idx
    · simp [Milk.cmds, Milk.cmd, h, takenWhileOk, ih]
    · simp [Milk.cmds, Milk.cmd, h, takenWhileOk]

lemma cmds_outcome (wOk : Nat → Bool) (l : List String) :
    ∀ s : ChanState,
      (Milk.cmds wOk s l).2.2 =
        (if (takenWhileOk wOk s.idx l).length = l.length then Outcome.ok ()
         else Outcome.panicked "couldn\x27t write commmand string") := by
  induction l with
  | nil => intro s; simp [Milk.cmds, takenWhileOk]
  | cons c rest ih =>
    intro s
    by_cases h : wOk s.idx
    · simp [Milk.cmds, Milk.cmd, h, takenWhileOk, ih]
    · simp [Milk.cmds, Milk.cmd, h, takenWhileOk]

/-- C7: for every input string, `Milk.cmd` performs exactly one write of
the bytes of the string followed by exactly one newline, with no other
modification; the channel receives that chunk exactly when the write
succeeds.  The theorem quantifies over every string, including strings
containing embedded newlines: the operation applies the same uniform
write in every case, so the no-embedded-newline requirement is a caller
precondition that `cmd` neither enforces nor checks. -/
theorem cmd_writes_command_newline (wOk : Nat → Bool) (s : ChanState) (command : String) :
    (Milk.cmd wOk s command).1 = [OsAction.writeAttempt (command ++ "\n")] ∧
    (Milk.cmd wOk s command).2.1.written =
      (if wOk s.idx then s.written ++ [command ++ "\n"] else s.written) := by
  by_cases h : wOk s.idx <;> simp [Milk.cmd, h]

/-- C6: the batch send `Milk.cmds` performs exactly the same writes, in
the same order, with the same resulting channel state and outcome, as
invoking the single send `Milk.cmd` on each element in list order
(`sendEachSpec`, built from the spec words); the delivered chunks are the
commands of the succeeding prefix, each newline-terminated, in submission
order, and there is no atomicity: a failed write on one command leaves
exactly the earlier commands already written and aborts the batch with
the write panic. -/
theorem cmds_refines_repeated_cmd (wOk : Nat → Bool) (s : ChanState) (l : List String) :
    Milk.cmds wOk s l = sendEachSpec wOk s l ∧
    (Milk.cmds wOk s l).2.1.written =
      s.written ++ (takenWhileOk wOk s.idx l).map (fun c => c ++ "\n") ∧
    (Milk.cmds wOk s l).2.2 =
      (if (takenWhileOk wOk s.idx l).length = l.length then Outcome.ok ()
       else Outcome.panicked "couldn\x27t write commmand string") := by
  refine ⟨?_, cmds_written wOk l s, cmds_outcome wOk l s⟩
  rw [sendEachSpec, sendEachSpec_go wOk l [] s]
  simp

/-- C2 amended: when the underlying write fails, `Milk.cmd` panics with
the source expect message rather than returning a detectable
`CommandWriteError` value; a failed write is never silently dropped (the
outcome is never `ok`), but the function returns `()` in Rust, so no
error value is ever returned to the caller. -/
theorem cmd_write_failure_never_silent (wOk : Nat → Bool) (s : ChanState) (command : String) :
    (Milk.cmd wOk s command).2.2 =
      (if wOk s.idx then Outcome.ok ()
       else Outcome.panicked "couldn\x27t write commmand string") ∧
    Outcome.isErr (Milk.cmd wOk s command).2.2 = false := by
  by_cases h : wOk s.idx <;> simp [Milk.cmd, h, Outcome.isErr]

/-- C2 counterexample: with every write failing (broken pipe), `cmd` on
the concrete input "x" panics and does not produce a returned error; the
claim that the caller gets a detectable `CommandWriteError` is false on
the code. -/
theorem cmd_write_failure_cex :
    (Milk.cmd wOkNever chan0 "x").2.2 =
      Outcome.panicked "couldn\x27t write commmand string" ∧
    Outcome.isErr (Milk.cmd wOkNever chan0 "x").2.2 = false := by
  decide

/-- C1: when the exit write succeeds, teardown (`Drop for Milk`) first
writes the reserved command "exit" (newline-terminated) to the channel
and then performs the blocking wait on the process, in that order, before
returning; the outcome is normal return when the wait succeeds. -/
theorem drop_sends_exit_then_waits (wOk : Nat → Bool) (waitOk : Bool) (s : ChanState)
    (h : wOk s.idx = true) :
    (Milk.drop wOk waitOk s).1 =
      [OsAction.writeAttempt ("exit" ++ "\n"), OsAction.waitCall] ∧
    (Milk.drop wOk waitOk s).2.2 =
      (if waitOk then Outcome.ok () else Outcome.panicked "couldn\x27t wait?") := by
  simp [Milk.drop, Milk.cmd, h]

/-- Witness for C1 at a concrete environment: all writes succeed, waiting
succeeds, starting from the empty channel state. -/
theorem drop_sends_exit_then_waits_witness :
    wOkAlways chan0.idx = true ∧
    ((Milk.drop wOkAlways true chan0).1 =
        [OsAction.writeAttempt ("exit" ++ "\n"), OsAction.waitCall] ∧
     (Milk.drop wOkAlways true chan0).2.2 =
        (if true then Outcome.ok () else Outcome.panicked "couldn\x27t wait?")) :=
  ⟨rfl, drop_sends_exit_then_waits wOkAlways true chan0 rfl⟩

/-- C4 amended: if writing the termination command fails during teardown,
the `.expect` inside `cmd` panics and the panic propagates out of `drop`:
the wait on the process is never attempted (no `waitCall` in the trace)
and the send failure is propagated to the caller as a panic rather than
being downgraded to a diagnostic. -/
theorem drop_write_failure_skips_wait (wOk : Nat → Bool) (waitOk : Bool) (s : ChanState)
    (h : wOk s.idx = false) :
    (Milk.drop wOk waitOk s).1 = [OsAction.writeAttempt ("exit" ++ "\n")] ∧
    (Milk.drop wOk waitOk s).2.2 =
      Outcome.panicked "couldn\x27t write commmand string" := by
  simp [Milk.drop, Milk.cmd, h]

/-- Witness for the amended C4 at a concrete environment where every
write fails. -/
theorem drop_write_failure_skips_wait_witness :
    wOkNever chan0.idx = false ∧
    ((Milk.drop wOkNever true chan0).1 = [OsAction.writeAttempt ("exit" ++ "\n")] ∧
     (Milk.drop wOkNever true chan0).2.2 =
        Outcome.panicked "couldn\x27t write commmand string") :=
  ⟨rfl, drop_write_failure_skips_wait wOkNever true chan0 rfl⟩

/-- C4 counterexample: with the channel broken (every write fails),
teardown performs only the failed write — its trace contains no
`waitCall` — and ends in a panic carrying the write failure, so it does
not still attempt to wait and does not keep the failure from the
caller. -/
theorem drop_write_failure_cex :
    (Milk.drop wOkNever true chan0).1 = [OsAction.writeAttempt ("exit" ++ "\n")] ∧
    List.countP OsAction.isWait (Milk.drop wOkNever true chan0).1 = 0 ∧
    (Milk.drop wOkNever true chan0).2.2 =
      Outcome.panicked "couldn\x27t write commmand string" := by
  decide

/-- C5 amended: teardown only writes "exit" and waits; it never performs
a `removeFifo` action, so the fifo filesystem node is not removed and the
path still exists after teardown (the descriptor is released only
implicitly when the `File` field is dropped). -/
theorem drop_no_remove_action (wOk : Nat → Bool) (waitOk : Bool) (s : ChanState) :
    List.countP OsAction.isRemove (Milk.drop wOk waitOk s).1 = 0 := by
  by_cases h : wOk s.idx <;>
    simp [Milk.drop, Milk.cmd, h, OsAction.isRemove]

/-- C5 counterexample: on a fully successful teardown the complete trace
is the exit write followed by the wait — it contains no removal of the
channel node, so the claim that teardown attempts to remove the fifo path
is false on the code. -/
theorem drop_never_removes_cex :
    (Milk.drop wOkAlways true chan0).1 =
      [OsAction.writeAttempt ("exit" ++ "\n"), OsAction.waitCall] ∧
    List.countP OsAction.isRemove (Milk.drop wOkAlways true chan0).1 = 0 := by
  decide

/-- C3 amended: when mkfifo succeeded but the external process image
cannot be launched, `Milk::new` panics with the source expect message
"Failed to spawn milk process" instead of returning a `ProcessSpawnError`
to the caller. -/
theorem new_spawn_failure_panics (env : NewEnv)
    (h1 : env.mkfifoStatus = StatusOutcome.exited true) (h2 : env.spawnOk = false) :
    (Milk.new env).2 = Outcome.panicked "Failed to spawn milk process" ∧
    Outcome.isErr (Milk.new env).2 = false := by
  simp [Milk.new, h1, h2, Outcome.isErr]

/-- Witness for the amended C3 at a concrete environment where the spawn
fails. -/
theorem new_spawn_failure_panics_witness :
    envSpawnFail.mkfifoStatus = StatusOutcome.exited true ∧
    envSpawnFail.spawnOk = false ∧
    ((Milk.new envSpawnFail).2 = Outcome.panicked "Failed to spawn milk process" ∧
     Outcome.isErr (Milk.new envSpawnFail).2 = false) :=
  ⟨rfl, rfl, new_spawn_failure_panics envSpawnFail rfl rfl⟩

/-- C3 counterexample: at a concrete environment where the spawn fails,
the constructor panics and no error value is returned, so the claim that
the failure is reported to the caller as a returned `ProcessSpawnError`
is false on the code. -/
theorem new_spawn_failure_cex :
    (Milk.new envSpawnFail).2 = Outcome.panicked "Failed to spawn milk process" ∧
    Outcome.isErr (Milk.new envSpawnFail).2 = false := by
  decide

/-- C8: whenever the mkfifo step does not report success — the status
call itself fails with an io error, or the child exits unsuccessfully —
`Milk::new` returns an error to the caller (the channel-creation error),
and its trace is exactly the single mkfifo call: the external process is
never spawned and the channel is never opened. -/
theorem new_mkfifo_failure_no_spawn (env : NewEnv)
    (h : env.mkfifoStatus ≠ StatusOutcome.exited true) :
    (∃ e, (Milk.new env).2 = Outcome.err e) ∧
    (Milk.new env).1 = [OsAction.mkfifoCall (fifoName env.fifoSuffix) true true] ∧
    List.countP OsAction.isSpawn (Milk.new env).1 = 0 ∧
    List.countP OsAction.isOpen (Milk.new env).1 = 0 := by
  cases h1 : env.mkfifoStatus with
  | ioError e =>
    exact ⟨⟨e, by simp [Milk.new, h1]⟩, by simp [Milk.new, h1],
      by simp [Milk.new, h1, OsAction.isSpawn], by simp [Milk.new, h1, OsAction.isOpen]⟩
  | exited success =>
    cases success with
    | false =>
      exact ⟨⟨"Couldn\x27t create pipe!", by simp [Milk.new, h1]⟩, by simp [Milk.new, h1],
        by simp [Milk.new, h1, OsAction.isSpawn], by simp [Milk.new, h1, OsAction.isOpen]⟩
    | true => exact absurd h1 h

/-- Witness for C8 at a concrete environment where the mkfifo child
reports failure. -/
theorem new_mkfifo_failure_no_spawn_witness :
    envMkfifoFail.mkfifoStatus ≠ StatusOutcome.exited true ∧
    ((∃ e, (Milk.new envMkfifoFail).2 = Outcome.err e) ∧
     (Milk.new envMkfifoFail).1 =
        [OsAction.mkfifoCall (fifoName envMkfifoFail.fifoSuffix) true true] ∧
     List.countP OsAction.isSpawn (Milk.new envMkfifoFail).1 = 0 ∧
     List.countP OsAction.isOpen (Milk.new envMkfifoFail).1 = 0) :=
  ⟨by decide, new_mkfifo_failure_no_spawn envMkfifoFail (by decide)⟩

/-- C9: every spawn action in a `Milk::new` trace is the spawn of the
`milk` binary with arguments `-f -F <fifo path>` and with all three
standard streams (stdin, stdout, stderr) redirected to the null sink: the
wrapper never interacts with the process through standard streams. -/
theorem new_spawn_streams_null (env : NewEnv) (a : OsAction)
    (ha : a ∈ (Milk.new env).1) (hs : OsAction.isSpawn a = true) :
    a = OsAction.spawnCall "milk" ["-f", "-F", fifoName env.fifoSuffix] true true true := by
  cases h1 : env.mkfifoStatus with
  | ioError e =>
    simp [Milk.new, h1] at ha
    subst ha; simp [OsAction.isSpawn] at hs
  | exited success =>
    cases success with
    | false =>
      simp [Milk.new, h1] at ha
      subst ha; simp [OsAction.isSpawn] at hs
    | true =>
      by_cases h2 : env.spawnOk = true
      · cases h3 : env.openErr with
        | some e =>
          simp [Milk.new, h1, h2, h3] at ha
          rcases ha with ha | ha | ha <;> subst ha <;>
            first | rfl | simp [OsAction.isSpawn] at hs
        | none =>
          simp [Milk.new, h1, h2, h3] at ha
          rcases ha with ha | ha | ha <;> subst ha <;>
            first | rfl | simp [OsAction.isSpawn] at hs
      · simp [Milk.new, h1, h2] at ha
        rcases ha with ha | ha <;> subst ha <;>
          first | rfl | simp [OsAction.isSpawn] at hs

/-- Witness for C9 at a concrete all-success environment, applied to the
spawn action of its trace. -/
theorem new_spawn_streams_null_witness :
    OsAction.spawnCall "milk" ["-f", "-F", fifoName envAllOk.fifoSuffix] true true true
        ∈ (Milk.new envAllOk).1 ∧
    OsAction.isSpawn (OsAction.spawnCall "milk" ["-f", "-F", fifoName envAllOk.fifoSuffix]
        true true true) = true ∧
    OsAction.spawnCall "milk" ["-f", "-F", fifoName envAllOk.fifoSuffix] true true true =
      OsAction.spawnCall "milk" ["-f", "-F", fifoName envAllOk.fifoSuffix] true true true :=
  ⟨by decide, rfl,
    new_spawn_streams_null envAllOk
      (OsAction.spawnCall "milk" ["-f", "-F", fifoName envAllOk.fifoSuffix] true true true)
      (by decide) rfl⟩

/-- C10: when mkfifo and the spawn succeed but opening the fifo write end
fails, `Milk::new` returns the open error to the caller; its trace is
exactly mkfifo, spawn, open — it contains no wait, no kill and no node
removal, so the already-spawned process is left running and the fifo node
is left in place. -/
theorem new_open_failure_leaves_process (env : NewEnv) (e : String)
    (h1 : env.mkfifoStatus = StatusOutcome.exited true) (h2 : env.spawnOk = true)
    (h3 : env.openErr = some e) :
    (Milk.new env).2 = Outcome.err e ∧
    (Milk.new env).1 =
      [OsAction.mkfifoCall (fifoName env.fifoSuffix) true true,
       OsAction.spawnCall "milk" ["-f", "-F", fifoName env.fifoSuffix] true true true,
       OsAction.openCall (fifoName env.fifoSuffix) false false true true] ∧
    List.countP OsAction.isSpawn (Milk.new env).1 = 1 ∧
    List.countP OsAction.isWait (Milk.new env).1 = 0 ∧
    List.countP OsAction.isKill (Milk.new env).1 = 0 ∧
    List.countP OsAction.isRemove (Milk.new env).1 = 0 := by
  refine ⟨by simp [Milk.new, h1, h2, h3], by simp [Milk.new, h1, h2, h3], ?_, ?_, ?_, ?_⟩ <;>
    simp [Milk.new, h1, h2, h3, OsAction.isSpawn, OsAction.isWait, OsAction.isKill,
      OsAction.isRemove]

/-- Witness for C10 at a concrete environment where opening the fifo
write end fails after a successful spawn. -/
theorem new_open_failure_leaves_process_witness :
    envOpenFail.mkfifoStatus = StatusOutcome.exited true ∧
    envOpenFail.spawnOk = true ∧
    envOpenFail.openErr = some "open failed" ∧
    ((Milk.new envOpenFail).2 = Outcome.err "open failed" ∧
     (Milk.new envOpenFail).1 =
        [OsAction.mkfifoCall (fifoName envOpenFail.fifoSuffix) true true,
         OsAction.spawnCall "milk" ["-f", "-F", fifoName envOpenFail.fifoSuffix] true true true,
         OsAction.openCall (fifoName envOpenFail.fifoSuffix) false false true true] ∧
     List.countP OsAction.isSpawn (Milk.new envOpenFail).1 = 1 ∧
     List.countP OsAction.isWait (Milk.new envOpenFail).1 = 0 ∧
     List.countP OsAction.isKill (Milk.new envOpenFail).1 = 0 ∧
     List.countP OsAction.isRemove (Milk.new envOpenFail).1 = 0) :=
  ⟨rfl, rfl, rfl, new_open_failure_leaves_process envOpenFail "open failed" rfl rfl rfl⟩
